import Mathlib

/-!
Shallow embedding of the energy-reports repository, covering the parts of the
code that the verified claims mention:

* `providers/llm_client.py` — multi-provider LLM client with ordered fallback;
* `scripts/oil/tools.py` and `scripts/gas/tools.py` — `sent_guard` and
  `title_counter` single-file JSON utilities;
* `scripts/oil/oil_daily.py` — the `main` pipeline, as far as its effect on the
  sentinel file is concerned;
* `scripts/gas/jkm_lng_daily.py` and `scripts/energy/coal_daily.py` —
  `compute_metrics`;
* `scripts/energy/format_energy_weekly_summary.py` and
  `scripts/energy/format_telegram_inventory.py` — `latest_stats`;
* `scripts/oil/fetch_prices.py` — `fetch_prices` and its mock fallback.

Machine reals of the Python source (floats) are modelled as rationals; the
claims settled here are structural (branch selection, thresholds at
binary-exact values, field equations) and do not depend on float rounding.
HTTP calls are modelled by their outcomes: a function from provider name to
`Except String String` (exception message or response text).
-/

namespace EnergyReports

/-! ## providers/llm_client.py -/

/-- The provider names that `LLMClient.generate` recognises: a name outside
this list matches none of the `if provider == ...` branches, so no call is
made for it and the loop silently moves on. -/
def knownProviders : List String := ["piapi", "groq", "openai", "deepseek"]

/-- Default of the `LLM_FALLBACK_ORDER` environment variable. -/
def defaultFallbackOrder : String := "piapi,groq,openai,deepseek"

/-- Relevant environment variables for `LLMClient.__init__`.
`none` models an unset variable (and, for `llmProvider`, also the empty
string, which is falsy in the Python `or` chain). -/
structure LLMEnv where
  fallbackOrder : Option String
  llmProvider : Option String

/-- State of an `LLMClient` instance. -/
structure LLMClient where
  order : List String
  default_provider : String
  active_provider : Option String
deriving Repr, DecidableEq

/-- Helper for `splitComma`: accumulates the current field in reverse. -/
def splitCommaAux : List Char → List Char → List String
  | [], acc => [String.mk acc.reverse]
  | c :: cs, acc =>
    if c = ',' then String.mk acc.reverse :: splitCommaAux cs []
    else splitCommaAux cs (c :: acc)

/-- The Python `str.split(",")`: splits on every comma, keeping empty fields,
and maps the empty string to a one-element list. -/
def splitComma (s : String) : List String := splitCommaAux s.toList []

/-- `LLMClient.__init__`: `self.order` splits `LLM_FALLBACK_ORDER` (default
`"piapi,groq,openai,deepseek"`) on commas; `self.default_provider` is the
`provider` argument, else `LLM_PROVIDER`, else `"piapi"`;
`self.active_provider` starts as `None`. -/
def LLMClient.init (env : LLMEnv) (provider : Option String) : LLMClient :=
  { order := splitComma (env.fallbackOrder.getD defaultFallbackOrder)
    default_provider := provider.getD (env.llmProvider.getD "piapi")
    active_provider := none }

/-- Result of a `generate` run: the known providers actually called, in call
order; the final `active_provider`; and either the returned text or, for the
final `RuntimeError`, the `last_error` it embeds (`none` models Python
`None`, i.e. no provider call ever raised). -/
structure GenResult where
  calls : List String
  activeProvider : Option String
  result : Except (Option String) String
deriving Repr

/-- The fallback loop of `LLMClient.generate`. `outcomes p` is the outcome of
calling provider `p` (response text, or the exception it raises). For each
name in the order: `active_provider` is set first; a known name is called and
a success returns at once; an exception updates `last_error` and continues;
an unknown name falls through the `if` chain and continues without a call. -/
def generateAux (outcomes : String → Except String String) :
    List String → List String → Option String → Option String → GenResult
  | [], calls, active, lastError => ⟨calls.reverse, active, .error lastError⟩
  | p :: rest, calls, _active, lastError =>
    if p ∈ knownProviders then
      match outcomes p with
      | .ok t => ⟨(p :: calls).reverse, some p, .ok t⟩
      | .error e => generateAux outcomes rest (p :: calls) (some p) (some e)
    else
      generateAux outcomes rest calls (some p) lastError

/-- `LLMClient.generate`, abstracted over provider-call outcomes. -/
def LLMClient.generate (c : LLMClient) (outcomes : String → Except String String) :
    GenResult :=
  generateAux outcomes c.order [] c.active_provider none

/-- Modelled from the spec words for the fallback chain: the first provider in
the order whose call succeeds, together with its response text. -/
def specFirstSuccess (outcomes : String → Except String String) :
    List String → Option (String × String)
  | [] => none
  | p :: rest =>
    if p ∈ knownProviders then
      match outcomes p with
      | .ok t => some (p, t)
      | .error _ => specFirstSuccess outcomes rest
    else specFirstSuccess outcomes rest

/-- Modelled from the spec words: the providers tried, namely the known
providers of the order up to and including the first success. -/
def specTried (outcomes : String → Except String String) :
    List String → List String
  | [] => []
  | p :: rest =>
    if p ∈ knownProviders then
      match outcomes p with
      | .ok _ => [p]
      | .error _ => p :: specTried outcomes rest
    else specTried outcomes rest

/-- The last provider error seen, starting from accumulator `acc`, while all
known-provider calls fail. -/
def specLastError (outcomes : String → Except String String) :
    List String → Option String → Option String
  | [], acc => acc
  | p :: rest, acc =>
    if p ∈ knownProviders then
      match outcomes p with
      | .ok _ => acc
      | .error e => specLastError outcomes rest (some e)
    else specLastError outcomes rest acc

/-! ## scripts/oil/tools.py and scripts/gas/tools.py -/

/-- Contents of a sentinel file as `sent_guard` sees them: absent, present but
unreadable or not a JSON object (the `except Exception: pass` path), or a JSON
object whose `last_sent` entry may be absent. -/
inductive SentFile where
  | missing
  | invalid
  | json (lastSent : Option String)
deriving Repr, DecidableEq

/-- `sent_guard` from `scripts/oil/tools.py` (the copy in
`scripts/gas/tools.py` is line-for-line the same computation): `today` is the
current date at UTC-3 formatted `YYYY-MM-DD`. Returns the Python return value
and the file contents after the call: if the file exists, parses, and its
`last_sent` equals today, return `True` without writing; in every other case
write the object with `last_sent = today` and return `False`. -/
def sent_guard (today : String) (f : SentFile) : Bool × SentFile :=
  match f with
  | .json (some d) => if d = today then (true, f) else (false, .json (some today))
  | _ => (false, .json (some today))

/-- Contents of the counter file as `title_counter` sees them; a parsed JSON
object is modelled by its key-to-integer-value map. -/
inductive CounterFile where
  | missing
  | invalid
  | json (data : String → Option Int)

/-- The dictionary `title_counter` starts from: the parsed file, or the empty
dict when the file is missing or fails to parse. -/
def counterData : CounterFile → String → Option Int
  | .json d => d
  | _ => fun _ => none

/-- `title_counter` from `scripts/oil/tools.py` (same code in
`scripts/gas/tools.py`): reads the counter file (missing or unparseable gives
the empty dict), sets `data[key] = int(data.get(key, 0)) + 1`, writes the
whole dict back, and returns the new value. Result: the returned integer and
the written key-to-value map. -/
def title_counter (f : CounterFile) (key : String) : Int × (String → Option Int) :=
  let data := counterData f
  let newVal : Int := (data key).getD 0 + 1
  (newVal, fun k => if k = key then some newVal else data k)

/-! ## scripts/oil/oil_daily.py -/

/-- How a run of `oil_daily.main` ends: early return because the guard found
today already sent; uncaught `RuntimeError` from the LLM fallback chain; or
normal completion (with the Telegram flag; `send_to_telegram` itself swallows
all delivery errors, so completion is independent of delivery success). -/
inductive MainOutcome where
  | skipped
  | llmFailed (err : Option String)
  | completed (sentTelegram : Bool) (text : String)
deriving Repr, DecidableEq

/-- The effect of `oil_daily.main` on the sentinel file. Arguments: the
`--force` and `--send-telegram` flags, today at UTC-3, the sentinel contents,
and the outcome of the LLM fallback chain (`fetch_prices` and
`send_to_telegram` never raise, and `title_counter` touches only the separate
counter file). Mirrors the source control flow: with `--force` the guard is
short-circuited and never called, so the sentinel is never written; otherwise
`sent_guard` runs first, its `True` branch returns early, and its `False`
branch has already written today before the report is generated. -/
def oil_main (force sendTG : Bool) (today : String) (f : SentFile)
    (llm : Except (Option String) String) : MainOutcome × SentFile :=
  if force then
    match llm with
    | .error e => (.llmFailed e, f)
    | .ok t => (.completed sendTG t, f)
  else
    let g := sent_guard today f
    if g.1 then (.skipped, f)
    else
      match llm with
      | .error e => (.llmFailed e, g.2)
      | .ok t => (.completed sendTG t, g.2)

/-! ## compute_metrics (scripts/gas/jkm_lng_daily.py, scripts/energy/coal_daily.py) -/

/-- One observation of a series: a date string and a numeric value. -/
structure Obs where
  date : String
  value : ℚ
deriving Repr, DecidableEq

/-- The dictionary returned by `compute_metrics`. -/
structure Metrics where
  last_value : ℚ
  last_date : String
  prev_value : Option ℚ
  prev_date : Option String
  delta : ℚ
  pct_change : ℚ
  trend : String
deriving Repr, DecidableEq

namespace Jkm

/-- `compute_metrics` from `scripts/gas/jkm_lng_daily.py`. `obs[-1]` on an
empty list raises `IndexError`, modelled by `none`. With at least two
observations the previous one is `obs[-2]`; `pct_change` guards the zero
divisor; the trend thresholds are `1.0` and `-1.0`. -/
def compute_metrics (obs : List Obs) : Option Metrics :=
  match obs.getLast? with
  | none => none
  | some last =>
    let p? : Option Obs := if 2 ≤ obs.length then obs.dropLast.getLast? else none
    let prev_value : Option ℚ := p?.map (·.value)
    let delta : ℚ := match prev_value with
      | some pv => last.value - pv
      | none => 0
    let pct : ℚ := match prev_value with
      | some pv => if pv ≠ 0 then delta / pv * 100 else 0
      | none => 0
    some { last_value := last.value, last_date := last.date
           prev_value := prev_value, prev_date := p?.map (·.date)
           delta := delta, pct_change := pct
           trend := if pct > 1 then "alta"
                    else if pct < -1 then "queda" else "estabilidade" }

end Jkm

namespace Coal

/-- `compute_metrics` from `scripts/energy/coal_daily.py`: same computation as
the JKM one except that the trend thresholds are `0.5` and `-0.5`. -/
def compute_metrics (obs : List Obs) : Option Metrics :=
  match obs.getLast? with
  | none => none
  | some last =>
    let p? : Option Obs := if 2 ≤ obs.length then obs.dropLast.getLast? else none
    let prev_value : Option ℚ := p?.map (·.value)
    let delta : ℚ := match prev_value with
      | some pv => last.value - pv
      | none => 0
    let pct : ℚ := match prev_value with
      | some pv => if pv ≠ 0 then delta / pv * 100 else 0
      | none => 0
    some { last_value := last.value, last_date := last.date
           prev_value := prev_value, prev_date := p?.map (·.date)
           delta := delta, pct_change := pct
           trend := if pct > 1/2 then "alta"
                    else if pct < -(1/2) then "queda" else "estabilidade" }

end Coal

/-! ## latest_stats (scripts/energy/format_energy_weekly_summary.py,
scripts/energy/format_telegram_inventory.py) -/

/-- A dataframe row: date and value columns; `none` models a NaN value cell
(the `pd.notna` checks). -/
structure Row where
  date : String
  value : Option ℚ
deriving Repr, DecidableEq

/-- The stats dictionary returned by `latest_stats` (the
`format_telegram_inventory` copy also carries the label and series id of the
latest row, which no claim mentions). -/
structure Stats where
  date : String
  value : Option ℚ
  delta : ℚ
  pct : ℚ
deriving Repr, DecidableEq

/-- Lexicographic comparison of character lists, the order Python and pandas
use on the date strings of these frames. -/
def charListLe : List Char → List Char → Bool
  | [], _ => true
  | _ :: _, [] => false
  | c :: cs, d :: ds =>
    if c.val < d.val then true
    else if d.val < c.val then false
    else charListLe cs ds

/-- String comparison used by the date sort. -/
def dateLe (a b : String) : Bool := charListLe a.toList b.toList

/-- `df.sort_values("date")`: stable sort of the rows by date string. -/
def sortByDate (rows : List Row) : List Row :=
  List.insertionSort (fun a b => dateLe a.date b.date = true) rows

namespace WeeklySummary

/-- `latest_stats` from `scripts/energy/format_energy_weekly_summary.py`:
`None` on an empty frame; otherwise sort by date, take the last row as latest
and the second-to-last (when the frame has two rows) as prev, and compute
delta and percent only when prev exists, its value is not NaN, and the latest
value is not NaN, guarding a zero prior value; otherwise both are `0.0`. -/
def latest_stats (rows : List Row) : Option Stats :=
  match (sortByDate rows).getLast? with
  | none => none
  | some latest =>
    let p? : Option Row := if 2 ≤ (sortByDate rows).length
      then (sortByDate rows).dropLast.getLast? else none
    match p?.bind (·.value), latest.value with
    | some pv, some v =>
      let delta := v - pv
      let pct := if pv ≠ 0 then delta / pv * 100 else 0
      some { date := latest.date, value := latest.value, delta := delta, pct := pct }
    | _, _ => some { date := latest.date, value := latest.value, delta := 0, pct := 0 }

end WeeklySummary

namespace TelegramInventory

/-- `latest_stats` from `scripts/energy/format_telegram_inventory.py`: the
same computation as the weekly-summary copy (that file additionally copies the
label and series id of the latest row into the result). -/
def latest_stats (rows : List Row) : Option Stats :=
  match (sortByDate rows).getLast? with
  | none => none
  | some latest =>
    let p? : Option Row := if 2 ≤ (sortByDate rows).length
      then (sortByDate rows).dropLast.getLast? else none
    match p?.bind (·.value), latest.value with
    | some pv, some v =>
      let delta := v - pv
      let pct := if pv ≠ 0 then delta / pv * 100 else 0
      some { date := latest.date, value := latest.value, delta := delta, pct := pct }
    | _, _ => some { date := latest.date, value := latest.value, delta := 0, pct := 0 }

end TelegramInventory

/-! ## scripts/oil/fetch_prices.py -/

/-- The dictionary returned by `fetch_prices`: always exactly the keys `wti`,
`brent`, `spread`. -/
structure Prices where
  wti : ℚ
  brent : ℚ
  spread : ℚ
deriving Repr, DecidableEq

/-- Python `round(x, 2)` modelled over the rationals: scale by 100, round to
the nearest integer, scale back. (CPython rounds half to even on binary
floats; no claim settled here evaluates `round` at such a midpoint, and the
claims only relate two applications of the same rounding.) -/
def round2 (q : ℚ) : ℚ := (round (q * 100) : ℤ) / 100

/-- `_mock_prices`: `r1` models `random.random()` and `r2` models
`random.uniform(-3, 5)`; `wti` and `brent` are rounded to two decimals and
`spread` is `round(brent - wti, 2)`. -/
def mock_prices (r1 r2 : ℚ) : Prices :=
  let wti := round2 (70 + r1 * 10)
  let brent := round2 (wti + r2)
  { wti := wti, brent := brent, spread := round2 (brent - wti) }

/-- `fetch_prices` from `scripts/oil/fetch_prices.py`, abstracted over the
environment and the two AlphaVantage call outcomes (value of
`_alpha_vantage_fx` for WTI and BRENT, or the exception raised). With an
AlphaVantage key and two successful calls it returns the rounded values and
`round(brent - wti, 2)`; any exception in that block is caught, the NASDAQ
branch is a literal `pass` whatever `_nasdaqKey` is, and the mock fallback is
returned. -/
def fetch_prices (alphaKey : Bool) (alphaWti alphaBrent : Except String ℚ)
    (_nasdaqKey : Bool) (r1 r2 : ℚ) : Prices :=
  if alphaKey then
    match alphaWti, alphaBrent with
    | .ok w, .ok b => { wti := round2 w, brent := round2 b, spread := round2 (b - w) }
    | _, _ => mock_prices r1 r2
  else
    mock_prices r1 r2

/-! ## Helper lemmas -/

lemma generateAux_calls (outcomes : String → Except String String) :
    ∀ (order calls : List String) (active lastError : Option String),
      (generateAux outcomes order calls active lastError).calls
        = calls.reverse ++ specTried outcomes order := by
  intro order
  induction order with
  | nil => intro calls active lastError; simp [generateAux, specTried]
  | cons p rest ih =>
    intro calls active lastError
    by_cases hp : p ∈ knownProviders
    · cases hout : outcomes p with
      | ok t => simp [generateAux, specTried, hp, hout]
      | error e => simp [generateAux, specTried, hp, hout, ih]
    · simp [generateAux, specTried, hp, ih]

lemma generateAux_success (outcomes : String → Except String String) :
    ∀ (order : List String) (p t : String),
      specFirstSuccess outcomes order = some (p, t) →
      ∀ (calls : List String) (active lastError : Option String),
        (generateAux outcomes order calls active lastError).result = .ok t ∧
        (generateAux outcomes order calls active lastError).activeProvider = some p := by
  intro order
  induction order with
  | nil => intro p t h; simp [specFirstSuccess] at h
  | cons q rest ih =>
    intro p t h calls active lastError
    by_cases hq : q ∈ knownProviders
    · cases hout : outcomes q with
      | ok s =>
        simp [specFirstSuccess, hq, hout] at h
        obtain ⟨hp, ht⟩ := h
        subst hp; subst ht
        simp [generateAux, hq, hout]
      | error e =>
        simp [specFirstSuccess, hq, hout] at h
        simpa [generateAux, hq, hout] using ih p t h (q :: calls) (some q) (some e)
    · simp [specFirstSuccess, hq] at h
      simpa [generateAux, hq] using ih p t h calls (some q) lastError

lemma generateAux_allFail (outcomes : String → Except String String) :
    ∀ (order : List String),
      specFirstSuccess outcomes order = none →
      ∀ (calls : List String) (active lastError : Option String),
        (generateAux outcomes order calls active lastError).result
          = .error (specLastError outcomes order lastError) := by
  intro order
  induction order with
  | nil => intro _ calls active lastError; simp [generateAux, specLastError]
  | cons q rest ih =>
    intro h calls active lastError
    by_cases hq : q ∈ knownProviders
    · cases hout : outcomes q with
      | ok s => simp [specFirstSuccess, hq, hout] at h
      | error e =>
        simp [specFirstSuccess, hq, hout] at h
        simpa [generateAux, specLastError, hq, hout] using
          ih h (q :: calls) (some q) (some e)
    · simp [specFirstSuccess, hq] at h
      simpa [generateAux, specLastError, hq] using ih h calls (some q) lastError

lemma specFirstSuccess_isSome (outcomes : String → Except String String) :
    ∀ (order : List String),
      (specFirstSuccess outcomes order).isSome = true ↔
        ∃ p ∈ order, p ∈ knownProviders ∧ ∃ t, outcomes p = .ok t := by
  intro order
  induction order with
  | nil => simp [specFirstSuccess]
  | cons q rest ih =>
    by_cases hq : q ∈ knownProviders
    · cases hout : outcomes q with
      | ok s =>
        simp only [specFirstSuccess, hq, if_true, hout]
        constructor
        · intro _; exact ⟨q, by simp, hq, s, hout⟩
        · intro _; simp
      | error e =>
        simp only [specFirstSuccess, hq, if_true, hout]
        rw [ih]
        constructor
        · rintro ⟨p, hp, hk, t, ht⟩; exact ⟨p, by simp [hp], hk, t, ht⟩
        · rintro ⟨p, hp, hk, t, ht⟩
          rcases List.mem_cons.mp hp with hpq | hpr
          · subst hpq; rw [hout] at ht; cases ht
          · exact ⟨p, hpr, hk, t, ht⟩
    · simp only [specFirstSuccess, hq, if_false]
      rw [ih]
      constructor
      · rintro ⟨p, hp, hk, t, ht⟩; exact ⟨p, by simp [hp], hk, t, ht⟩
      · rintro ⟨p, hp, hk, t, ht⟩
        rcases List.mem_cons.mp hp with hpq | hpr
        · subst hpq; exact absurd hk hq
        · exact ⟨p, hpr, hk, t, ht⟩

lemma sent_guard_true_iff (today : String) (f : SentFile) :
    (sent_guard today f).1 = true ↔ f = .json (some today) := by
  rcases f with _ | _ | ls
  · simp [sent_guard]
  · simp [sent_guard]
  · rcases ls with _ | d
    · simp [sent_guard]
    · by_cases hd : d = today
      · subst hd; simp [sent_guard]
      · simp [sent_guard, hd]

lemma sent_guard_false_snd (today : String) (f : SentFile)
    (h : (sent_guard today f).1 = false) :
    (sent_guard today f).2 = .json (some today) := by
  rcases f with _ | _ | ls
  · rfl
  · rfl
  · rcases ls with _ | d
    · rfl
    · by_cases hd : d = today
      · subst hd; simp [sent_guard] at h
      · simp [sent_guard, hd]

lemma sent_guard_true_snd (today : String) (f : SentFile)
    (h : (sent_guard today f).1 = true) :
    (sent_guard today f).2 = f := by
  have hf := (sent_guard_true_iff today f).mp h
  subst hf
  simp [sent_guard]

lemma trend_chain_iff (thr pct : ℚ) (h0 : 0 ≤ thr) :
    ((if pct > thr then "alta" else if pct < -thr then "queda" else "estabilidade") = "alta"
        ↔ pct > thr) ∧
    ((if pct > thr then "alta" else if pct < -thr then "queda" else "estabilidade") = "queda"
        ↔ pct < -thr) ∧
    ((if pct > thr then "alta" else if pct < -thr then "queda" else "estabilidade")
        = "estabilidade" ↔ (pct ≤ thr ∧ -thr ≤ pct)) := by
  by_cases h1 : pct > thr
  · have h2 : ¬ pct < -thr := by linarith
    rw [if_pos h1]
    refine ⟨by simp [h1], ?_, ?_⟩
    · constructor
      · intro h; exact absurd h (by decide)
      · intro h; exact absurd h h2
    · constructor
      · intro h; exact absurd h (by decide)
      · rintro ⟨ha, _⟩; exact absurd h1 (not_lt.mpr ha)
  · rw [if_neg h1]
    by_cases h2 : pct < -thr
    · rw [if_pos h2]
      refine ⟨?_, by simp [h2], ?_⟩
      · constructor
        · intro h; exact absurd h (by decide)
        · intro h; exact absurd h h1
      · constructor
        · intro h; exact absurd h (by decide)
        · rintro ⟨_, hb⟩; exact absurd h2 (not_lt.mpr hb)
    · rw [if_neg h2]
      refine ⟨?_, ?_, ?_⟩
      · constructor
        · intro h; exact absurd h (by decide)
        · intro h; exact absurd h h1
      · constructor
        · intro h; exact absurd h (by decide)
        · intro h; exact absurd h h2
      · exact iff_of_true rfl ⟨le_of_not_lt h1, le_of_not_lt h2⟩

lemma jkm_trend_eq (obs : List Obs) (m : Metrics)
    (h : Jkm.compute_metrics obs = some m) :
    m.trend = if m.pct_change > 1 then "alta"
              else if m.pct_change < -1 then "queda" else "estabilidade" := by
  unfold Jkm.compute_metrics at h
  rcases hgl : obs.getLast? with _ | last
  · rw [hgl] at h; cases h
  · rw [hgl] at h
    injection h with h
    subst h
    rfl

lemma coal_trend_eq (obs : List Obs) (m : Metrics)
    (h : Coal.compute_metrics obs = some m) :
    m.trend = if m.pct_change > 1/2 then "alta"
              else if m.pct_change < -(1/2) then "queda" else "estabilidade" := by
  unfold Coal.compute_metrics at h
  rcases hgl : obs.getLast? with _ | last
  · rw [hgl] at h; cases h
  · rw [hgl] at h
    injection h with h
    subst h
    rfl

lemma jkm_short_metrics (obs : List Obs) (m : Metrics)
    (hlen : obs.length ≤ 1) (h : Jkm.compute_metrics obs = some m) :
    m.delta = 0 ∧ m.pct_change = 0 := by
  unfold Jkm.compute_metrics at h
  rcases hgl : obs.getLast? with _ | last
  · rw [hgl] at h; cases h
  · rw [hgl] at h
    have hl : ¬ 2 ≤ obs.length := by omega
    rw [if_neg hl] at h
    injection h with h
    subst h
    exact ⟨rfl, rfl⟩

lemma coal_short_metrics (obs : List Obs) (m : Metrics)
    (hlen : obs.length ≤ 1) (h : Coal.compute_metrics obs = some m) :
    m.delta = 0 ∧ m.pct_change = 0 := by
  unfold Coal.compute_metrics at h
  rcases hgl : obs.getLast? with _ | last
  · rw [hgl] at h; cases h
  · rw [hgl] at h
    have hl : ¬ 2 ≤ obs.length := by omega
    rw [if_neg hl] at h
    injection h with h
    subst h
    exact ⟨rfl, rfl⟩

lemma jkm_two_metrics (obs : List Obs) (last prev : Obs)
    (hlen : 2 ≤ obs.length) (hlast : obs.getLast? = some last)
    (hprev : obs.dropLast.getLast? = some prev) :
    Jkm.compute_metrics obs = some
      { last_value := last.value, last_date := last.date
        prev_value := some prev.value, prev_date := some prev.date
        delta := last.value - prev.value
        pct_change := if prev.value ≠ 0
          then (last.value - prev.value) / prev.value * 100 else 0
        trend :=
          if (if prev.value ≠ 0 then (last.value - prev.value) / prev.value * 100 else 0) > 1
          then "alta"
          else if (if prev.value ≠ 0 then (last.value - prev.value) / prev.value * 100 else 0)
              < -1
          then "queda" else "estabilidade" } := by
  unfold Jkm.compute_metrics
  rw [hlast, if_pos hlen, hprev]
  rfl

lemma coal_two_metrics (obs : List Obs) (last prev : Obs)
    (hlen : 2 ≤ obs.length) (hlast : obs.getLast? = some last)
    (hprev : obs.dropLast.getLast? = some prev) :
    Coal.compute_metrics obs = some
      { last_value := last.value, last_date := last.date
        prev_value := some prev.value, prev_date := some prev.date
        delta := last.value - prev.value
        pct_change := if prev.value ≠ 0
          then (last.value - prev.value) / prev.value * 100 else 0
        trend :=
          if (if prev.value ≠ 0 then (last.value - prev.value) / prev.value * 100 else 0) > 1/2
          then "alta"
          else if (if prev.value ≠ 0 then (last.value - prev.value) / prev.value * 100 else 0)
              < -(1/2)
          then "queda" else "estabilidade" } := by
  unfold Coal.compute_metrics
  rw [hlast, if_pos hlen, hprev]
  rfl

lemma weekly_latest_stats_two (rows : List Row) (a b : Row) (pa vb : ℚ)
    (hlen : 2 ≤ (sortByDate rows).length)
    (hb : (sortByDate rows).getLast? = some b)
    (ha : (sortByDate rows).dropLast.getLast? = some a)
    (hpa : a.value = some pa) (hvb : b.value = some vb) :
    WeeklySummary.latest_stats rows = some
      { date := b.date, value := some vb
        delta := vb - pa
        pct := if pa ≠ 0 then (vb - pa) / pa * 100 else 0 } := by
  unfold WeeklySummary.latest_stats
  rw [hb, if_pos hlen, ha]
  simp only [Option.some_bind, hpa, hvb]

lemma weekly_latest_stats_single (r : Row) :
    WeeklySummary.latest_stats [r] = some
      { date := r.date, value := r.value, delta := 0, pct := 0 } := by
  unfold WeeklySummary.latest_stats
  simp [sortByDate]

lemma inventory_latest_stats_two (rows : List Row) (a b : Row) (pa vb : ℚ)
    (hlen : 2 ≤ (sortByDate rows).length)
    (hb : (sortByDate rows).getLast? = some b)
    (ha : (sortByDate rows).dropLast.getLast? = some a)
    (hpa : a.value = some pa) (hvb : b.value = some vb) :
    TelegramInventory.latest_stats rows = some
      { date := b.date, value := some vb
        delta := vb - pa
        pct := if pa ≠ 0 then (vb - pa) / pa * 100 else 0 } := by
  unfold TelegramInventory.latest_stats
  rw [hb, if_pos hlen, ha]
  simp only [Option.some_bind, hpa, hvb]

lemma inventory_latest_stats_single (r : Row) :
    TelegramInventory.latest_stats [r] = some
      { date := r.date, value := r.value, delta := 0, pct := 0 } := by
  unfold TelegramInventory.latest_stats
  simp [sortByDate]

lemma splitComma_default : splitComma defaultFallbackOrder = knownProviders := by decide

/-! ## Claim theorems -/

/-- C1: for every fallback order (default piapi,groq,openai,deepseek) and any
provider-call outcomes, generate tries the providers in exactly the configured
order, returns the response text of the first provider call that does not
raise, tries no provider later in the order after that success, and leaves
active_provider equal to the provider that served the response; with
LLM_FALLBACK_ORDER unset the order is the default one. -/
theorem generate_tries_providers_in_order (c : LLMClient)
    (outcomes : String → Except String String) (p t : String)
    (hfs : specFirstSuccess outcomes c.order = some (p, t)) :
    (c.generate outcomes).calls = specTried outcomes c.order ∧
    (c.generate outcomes).result = .ok t ∧
    (c.generate outcomes).activeProvider = some p ∧
    ∀ env : LLMEnv, env.fallbackOrder = none →
      (LLMClient.init env none).order = knownProviders := by
  refine ⟨generateAux_calls outcomes c.order [] c.active_provider none,
    (generateAux_success outcomes c.order p t hfs [] c.active_provider none).1,
    (generateAux_success outcomes c.order p t hfs [] c.active_provider none).2,
    ?_⟩
  intro env henv
  simp [LLMClient.init, henv, splitComma_default]

/-- Witness for C1: second provider of a two-element order serves the
response after the first raises. -/
theorem generate_tries_providers_in_order_witness :
    ((LLMClient.mk ["piapi", "groq"] "piapi" none).generate
        (fun q => if q = "groq" then Except.ok "resp" else Except.error "down")).calls
      = specTried (fun q => if q = "groq" then Except.ok "resp" else Except.error "down")
          ["piapi", "groq"] ∧
    ((LLMClient.mk ["piapi", "groq"] "piapi" none).generate
        (fun q => if q = "groq" then Except.ok "resp" else Except.error "down")).result
      = .ok "resp" ∧
    ((LLMClient.mk ["piapi", "groq"] "piapi" none).generate
        (fun q => if q = "groq" then Except.ok "resp" else Except.error "down")).activeProvider
      = some "groq" :=
  ⟨(generate_tries_providers_in_order (LLMClient.mk ["piapi", "groq"] "piapi" none)
      (fun q => if q = "groq" then Except.ok "resp" else Except.error "down")
      "groq" "resp" (by decide)).1,
   (generate_tries_providers_in_order (LLMClient.mk ["piapi", "groq"] "piapi" none)
      (fun q => if q = "groq" then Except.ok "resp" else Except.error "down")
      "groq" "resp" (by decide)).2.1,
   (generate_tries_providers_in_order (LLMClient.mk ["piapi", "groq"] "piapi" none)
      (fun q => if q = "groq" then Except.ok "resp" else Except.error "down")
      "groq" "resp" (by decide)).2.2.1⟩

/-- C2: generate raises, with the RuntimeError carrying the last provider
error, exactly when no provider call in the configured order succeeds;
whenever at least one provider in the order succeeds, generate returns
normally. -/
theorem generate_raises_iff_all_fail (c : LLMClient)
    (outcomes : String → Except String String) :
    ((∃ t, (c.generate outcomes).result = .ok t) ↔
      ∃ p ∈ c.order, p ∈ knownProviders ∧ ∃ t, outcomes p = .ok t) ∧
    ((¬ ∃ p ∈ c.order, p ∈ knownProviders ∧ ∃ t, outcomes p = .ok t) →
      (c.generate outcomes).result = .error (specLastError outcomes c.order none)) := by
  constructor
  · constructor
    · rintro ⟨t, ht⟩
      rcases hfs : specFirstSuccess outcomes c.order with _ | ⟨p, s⟩
      · have hall := generateAux_allFail outcomes c.order hfs [] c.active_provider none
        rw [LLMClient.generate] at ht
        rw [hall] at ht
        cases ht
      · exact (specFirstSuccess_isSome outcomes c.order).mp (by rw [hfs]; rfl)
    · intro hex
      rcases hfs : specFirstSuccess outcomes c.order with _ | ⟨p, s⟩
      · have h1 := (specFirstSuccess_isSome outcomes c.order).mpr hex
        rw [hfs] at h1
        cases h1
      · exact ⟨s, (generateAux_success outcomes c.order p s hfs [] c.active_provider none).1⟩
  · intro hno
    have h1 : specFirstSuccess outcomes c.order = none := by
      rcases hfs : specFirstSuccess outcomes c.order with _ | ⟨p, s⟩
      · rfl
      · exact absurd ((specFirstSuccess_isSome outcomes c.order).mp (by rw [hfs]; rfl)) hno
    exact generateAux_allFail outcomes c.order h1 [] c.active_provider none

/-- Witness for C2: a single provider that always raises makes generate raise
with that last error. -/
theorem generate_raises_iff_all_fail_witness :
    ((LLMClient.mk ["piapi"] "piapi" none).generate
        (fun _ => Except.error "e1")).result = .error (some "e1") := by
  have hno : ¬ ∃ p ∈ (LLMClient.mk ["piapi"] "piapi" none).order,
      p ∈ knownProviders ∧ ∃ t,
        (fun _ : String => (Except.error "e1" : Except String String)) p = Except.ok t := by
    rintro ⟨p, hp, hk, t, ht⟩
    simp at ht
  exact (generate_raises_iff_all_fail (LLMClient.mk ["piapi"] "piapi" none)
    (fun _ => Except.error "e1")).2 hno

/-- C8: neither the provider argument of the constructor nor the LLM_PROVIDER
environment variable has any effect on generate: two clients built with any
provider arguments, from environments that agree on LLM_FALLBACK_ORDER but
may differ arbitrarily in LLM_PROVIDER, have the same order, and generate
returns the same calls, active provider and result for the same
provider-call outcomes. -/
theorem generate_ignores_provider_argument (env1 env2 : LLMEnv) (p1 p2 : Option String)
    (outcomes : String → Except String String)
    (horder : env1.fallbackOrder = env2.fallbackOrder) :
    (LLMClient.init env1 p1).order = (LLMClient.init env2 p2).order ∧
    (LLMClient.init env1 p1).generate outcomes = (LLMClient.init env2 p2).generate outcomes := by
  have h : (LLMClient.init env1 p1).order = (LLMClient.init env2 p2).order := by
    simp only [LLMClient.init, horder]
  refine ⟨h, ?_⟩
  show generateAux outcomes (LLMClient.init env1 p1).order [] none none
    = generateAux outcomes (LLMClient.init env2 p2).order [] none none
  rw [h]

/-- Witness for C8: environments that differ in LLM_PROVIDER, and different
provider arguments, still give identical order and generate behaviour. -/
theorem generate_ignores_provider_argument_witness :
    (LLMClient.init ⟨none, some "piapi"⟩ (some "groq")).order
      = (LLMClient.init ⟨none, some "deepseek"⟩ none).order ∧
    (LLMClient.init ⟨none, some "piapi"⟩ (some "groq")).generate (fun _ => Except.ok "r")
      = (LLMClient.init ⟨none, some "deepseek"⟩ none).generate (fun _ => Except.ok "r") :=
  generate_ignores_provider_argument ⟨none, some "piapi"⟩ ⟨none, some "deepseek"⟩
    (some "groq") none (fun _ => Except.ok "r") rfl

/-- C3 counterexample: a run of oil_daily.main without force, with the
sentinel file absent and the LLM fallback chain raising, delivers no report,
yet the sentinel ends up recording today, refuting the claim that last_sent
changes only in runs that actually deliver. -/
theorem oil_main_sentinel_written_without_delivery :
    (oil_main false true "2026-10-12" .missing (.error (some "all providers failed"))).1
      = .llmFailed (some "all providers failed") ∧
    (oil_main false true "2026-10-12" .missing (.error (some "all providers failed"))).2
      = .json (some "2026-10-12") ∧
    SentFile.missing ≠ .json (some "2026-10-12") :=
  ⟨rfl, rfl, by decide⟩

/-- C3 (amended): oil_daily.main touches the sentinel only through sent_guard
at the start of the run: without force, a run that passes the guard has
already written today to the sentinel before the report is generated,
whatever the LLM outcome and delivery; a guard-skipped run leaves the file
unchanged; a forced run never updates the sentinel, even when it delivers. -/
theorem oil_main_sentinel_update_rule (force sendTG : Bool) (today : String)
    (f : SentFile) (llm : Except (Option String) String) :
    (force = true → (oil_main force sendTG today f llm).2 = f) ∧
    (force = false → (sent_guard today f).1 = true →
      (oil_main force sendTG today f llm).2 = f) ∧
    (force = false → (sent_guard today f).1 = false →
      (oil_main force sendTG today f llm).2 = .json (some today)) := by
  refine ⟨?_, ?_, ?_⟩
  · intro h; subst h
    cases llm <;> rfl
  · intro h hg; subst h
    simp [oil_main, hg]
  · intro h hg; subst h
    have hw := sent_guard_false_snd today f hg
    cases llm <;> simp [oil_main, hg, hw]

/-- Witness for the amended C3: a successful un-forced run writes today. -/
theorem oil_main_sentinel_update_rule_witness :
    (oil_main false true "2026-01-01" .missing (.ok "txt")).2 = .json (some "2026-01-01") :=
  (oil_main_sentinel_update_rule false true "2026-01-01" .missing (.ok "txt")).2.2
    rfl (by decide)

/-- C4: sent_guard returns True exactly when the file exists and parses as a
JSON object whose last_sent equals today at UTC-3; in every other case it
writes the object with last_sent set to today and returns False; a True
return leaves the file unchanged, so of two consecutive calls on the same
path within one UTC-3 day the second always returns True. -/
theorem sent_guard_correct (today : String) (f : SentFile) :
    ((sent_guard today f).1 = true ↔ f = .json (some today)) ∧
    ((sent_guard today f).1 = false → (sent_guard today f).2 = .json (some today)) ∧
    ((sent_guard today f).1 = true → (sent_guard today f).2 = f) ∧
    (sent_guard today ((sent_guard today f).2)).1 = true := by
  refine ⟨sent_guard_true_iff today f, sent_guard_false_snd today f,
    sent_guard_true_snd today f, ?_⟩
  cases hb : (sent_guard today f).1 with
  | false =>
    rw [sent_guard_false_snd today f hb]
    simp [sent_guard]
  | true =>
    rw [sent_guard_true_snd today f hb]
    exact hb

/-- Witness for C4 on an absent sentinel file. -/
theorem sent_guard_correct_witness :
    (sent_guard "2026-01-01" SentFile.missing).2 = .json (some "2026-01-01") ∧
    (sent_guard "2026-01-01" ((sent_guard "2026-01-01" SentFile.missing).2)).1 = true :=
  ⟨(sent_guard_correct "2026-01-01" .missing).2.1 (by decide),
   (sent_guard_correct "2026-01-01" .missing).2.2.2⟩

/-- C5 counterexample: coal_daily compute_metrics labels a rise of 0.75
percent as alta although 0.75 does not exceed 1.0, refuting the claim that
compute_metrics assigns alta exactly when the percent change exceeds 1.0. -/
theorem coal_trend_alta_below_one_percent :
    (Coal.compute_metrics [⟨"2026-01-01", 100⟩, ⟨"2026-01-08", 403/4⟩]).map Metrics.trend
      = some "alta" ∧
    (Coal.compute_metrics [⟨"2026-01-01", 100⟩, ⟨"2026-01-08", 403/4⟩]).map Metrics.pct_change
      = some (3/4) ∧
    ¬ ((3 : ℚ)/4 > 1) := by
  have h2 := coal_two_metrics
    [⟨"2026-01-01", 100⟩, ⟨"2026-01-08", 403/4⟩]
    ⟨"2026-01-08", 403/4⟩ ⟨"2026-01-01", 100⟩ (by simp) rfl rfl
  rw [h2]
  refine ⟨?_, ?_, by norm_num⟩
  · simp only [Option.map_some]
    norm_num
  · simp only [Option.map_some]
    norm_num

/-- C5 (amended): the jkm compute_metrics assigns alta exactly when the
percent change exceeds 1.0, queda exactly when it is below -1.0 and
estabilidade otherwise, including estabilidade whenever a nonempty list has
fewer than two observations; the coal_daily compute_metrics follows the same
scheme with thresholds 0.5 and -0.5. -/
theorem compute_metrics_trend_thresholds :
    (∀ (obs : List Obs) (m : Metrics), Jkm.compute_metrics obs = some m →
      ((m.trend = "alta" ↔ m.pct_change > 1) ∧
       (m.trend = "queda" ↔ m.pct_change < -1) ∧
       (m.trend = "estabilidade" ↔ (m.pct_change ≤ 1 ∧ -1 ≤ m.pct_change)))) ∧
    (∀ (obs : List Obs) (m : Metrics), Coal.compute_metrics obs = some m →
      ((m.trend = "alta" ↔ m.pct_change > 1/2) ∧
       (m.trend = "queda" ↔ m.pct_change < -(1/2)) ∧
       (m.trend = "estabilidade" ↔ (m.pct_change ≤ 1/2 ∧ -(1/2) ≤ m.pct_change)))) ∧
    (∀ (obs : List Obs) (m : Metrics), obs.length ≤ 1 → Jkm.compute_metrics obs = some m →
      m.trend = "estabilidade") ∧
    (∀ (obs : List Obs) (m : Metrics), obs.length ≤ 1 → Coal.compute_metrics obs = some m →
      m.trend = "estabilidade") := by
  refine ⟨?_, ?_, ?_, ?_⟩
  · intro obs m h
    rw [jkm_trend_eq obs m h]
    exact trend_chain_iff 1 m.pct_change (by norm_num)
  · intro obs m h
    rw [coal_trend_eq obs m h]
    exact trend_chain_iff (1/2) m.pct_change (by norm_num)
  · intro obs m hlen h
    rw [jkm_trend_eq obs m h, (jkm_short_metrics obs m hlen h).2]
    norm_num
  · intro obs m hlen h
    rw [coal_trend_eq obs m h, (coal_short_metrics obs m hlen h).2]
    norm_num

/-- Witness for the amended C5: a one-observation list is labelled
estabilidade. -/
theorem compute_metrics_trend_thresholds_witness :
    Metrics.trend { last_value := 10, last_date := "2026-01-01"
                    prev_value := none, prev_date := none
                    delta := 0, pct_change := 0, trend := "estabilidade" }
      = "estabilidade" :=
  compute_metrics_trend_thresholds.2.2.1 [⟨"2026-01-01", 10⟩] _ (by decide) (by decide)

/-- C6: for a nonempty row set, the weekly summary latest_stats computes the
absolute delta between the two most recent rows after sorting by date and the
percent delta against the prior value, both 0.0 with a single observation;
the jkm compute_metrics does the same on the last two observations of its
list. -/
theorem metrics_from_two_most_recent :
    (∀ (rows : List Row) (a b : Row) (pa vb : ℚ),
      2 ≤ (sortByDate rows).length →
      (sortByDate rows).getLast? = some b →
      (sortByDate rows).dropLast.getLast? = some a →
      a.value = some pa → b.value = some vb → pa ≠ 0 →
      WeeklySummary.latest_stats rows
        = some { date := b.date, value := some vb
                 delta := vb - pa, pct := (vb - pa) / pa * 100 }) ∧
    (∀ r : Row, WeeklySummary.latest_stats [r]
        = some { date := r.date, value := r.value, delta := 0, pct := 0 }) ∧
    (∀ (obs : List Obs) (last prev : Obs) (m : Metrics),
      2 ≤ obs.length → obs.getLast? = some last → obs.dropLast.getLast? = some prev →
      prev.value ≠ 0 → Jkm.compute_metrics obs = some m →
      m.delta = last.value - prev.value ∧
      m.pct_change = (last.value - prev.value) / prev.value * 100) ∧
    (∀ (o : Obs) (m : Metrics), Jkm.compute_metrics [o] = some m →
      m.delta = 0 ∧ m.pct_change = 0) := by
  refine ⟨?_, weekly_latest_stats_single, ?_, ?_⟩
  · intro rows a b pa vb hlen hb ha hpa hvb hpa0
    rw [weekly_latest_stats_two rows a b pa vb hlen hb ha hpa hvb, if_pos hpa0]
  · intro obs last prev m hlen hlast hprev hpv h
    rw [jkm_two_metrics obs last prev hlen hlast hprev] at h
    injection h with h
    subst h
    exact ⟨rfl, by simp [hpv]⟩
  · intro o m h
    exact jkm_short_metrics [o] m (by simp) h

/-- Witness for C6 on two concrete rows and observations. -/
theorem metrics_from_two_most_recent_witness :
    WeeklySummary.latest_stats
        [{ date := "2026-01-01", value := some 200 }, { date := "2026-01-08", value := some 210 }]
      = some { date := "2026-01-08", value := some 210
               delta := 210 - 200, pct := (210 - 200) / 200 * 100 } :=
  metrics_from_two_most_recent.1
    [{ date := "2026-01-01", value := some 200 }, { date := "2026-01-08", value := some 210 }]
    { date := "2026-01-01", value := some 200 } { date := "2026-01-08", value := some 210 }
    200 210 (by decide) (by decide) (by decide) (by decide) (by decide) (by norm_num)

/-- C7: title_counter increments the integer stored under the key by exactly
one, treating a missing key, missing file or unparseable file as zero,
returns the incremented value, and leaves every other key of the written
counter file unchanged. -/
theorem title_counter_correct (f : CounterFile) (key : String) :
    (title_counter f key).1 = (counterData f key).getD 0 + 1 ∧
    (title_counter f key).2 key = some ((counterData f key).getD 0 + 1) ∧
    (∀ k, k ≠ key → (title_counter f key).2 k = counterData f k) ∧
    (title_counter .missing key).1 = 1 ∧
    (title_counter .invalid key).1 = 1 := by
  refine ⟨rfl, by simp [title_counter], ?_, rfl, rfl⟩
  intro k hk
  simp [title_counter, hk]

/-- Witness for C7 on a concrete counter file holding two keys. -/
theorem title_counter_correct_witness :
    (title_counter (.json fun k => if k = "diario_oil" then some 4 else none) "diario_oil").2
        "diario_gas"
      = counterData (.json fun k => if k = "diario_oil" then some 4 else none) "diario_gas" ∧
    (title_counter (.json fun k => if k = "diario_oil" then some 4 else none) "diario_oil").1
      = (counterData (.json fun k => if k = "diario_oil" then some 4 else none)
          "diario_oil").getD 0 + 1 :=
  ⟨(title_counter_correct _ "diario_oil").2.2.1 "diario_gas" (by decide),
   (title_counter_correct _ "diario_oil").1⟩

/-- C9: whenever the prior observation value is exactly zero, the percent
delta is defined as 0.0 instead of raising a division error, in the weekly
summary latest_stats, the inventory latest_stats and the jkm
compute_metrics. -/
theorem pct_zero_prior_defined :
    (∀ (rows : List Row) (a b : Row) (vb : ℚ),
      2 ≤ (sortByDate rows).length →
      (sortByDate rows).getLast? = some b →
      (sortByDate rows).dropLast.getLast? = some a →
      a.value = some 0 → b.value = some vb →
      WeeklySummary.latest_stats rows
        = some { date := b.date, value := some vb, delta := vb, pct := 0 }) ∧
    (∀ (rows : List Row) (a b : Row) (vb : ℚ),
      2 ≤ (sortByDate rows).length →
      (sortByDate rows).getLast? = some b →
      (sortByDate rows).dropLast.getLast? = some a →
      a.value = some 0 → b.value = some vb →
      TelegramInventory.latest_stats rows
        = some { date := b.date, value := some vb, delta := vb, pct := 0 }) ∧
    (∀ (obs : List Obs) (last prev : Obs) (m : Metrics),
      2 ≤ obs.length → obs.getLast? = some last → obs.dropLast.getLast? = some prev →
      prev.value = 0 → Jkm.compute_metrics obs = some m → m.pct_change = 0) := by
  refine ⟨?_, ?_, ?_⟩
  · intro rows a b vb hlen hb ha hpa hvb
    rw [weekly_latest_stats_two rows a b 0 vb hlen hb ha hpa hvb]
    norm_num
  · intro rows a b vb hlen hb ha hpa hvb
    rw [inventory_latest_stats_two rows a b 0 vb hlen hb ha hpa hvb]
    norm_num
  · intro obs last prev m hlen hlast hprev hpv h
    rw [jkm_two_metrics obs last prev hlen hlast hprev] at h
    injection h with h
    subst h
    simp [hpv]

/-- Witness for C9 on a prior value of zero. -/
theorem pct_zero_prior_defined_witness :
    WeeklySummary.latest_stats
        [{ date := "2026-01-01", value := some 0 }, { date := "2026-01-08", value := some 5 }]
      = some { date := "2026-01-08", value := some 5, delta := 5, pct := 0 } :=
  pct_zero_prior_defined.1
    [{ date := "2026-01-01", value := some 0 }, { date := "2026-01-08", value := some 5 }]
    { date := "2026-01-01", value := some 0 } { date := "2026-01-08", value := some 5 }
    5 (by decide) (by decide) (by decide) (by decide) (by decide)

/-- C10: oil fetch_prices is total over provider availability and outcomes,
always producing exactly the fields wti, brent and spread: with an
AlphaVantage key and two successful calls the result is the rounded pair with
spread round(brent - wti, 2) of the fetched values; in every other case it
falls back to the mock prices, whose spread is round(brent - wti, 2) of the
returned pair. -/
theorem fetch_prices_correct (alphaKey : Bool) (aw ab : Except String ℚ)
    (nk : Bool) (r1 r2 : ℚ) :
    (∀ w b, alphaKey = true → aw = .ok w → ab = .ok b →
      fetch_prices alphaKey aw ab nk r1 r2
        = { wti := round2 w, brent := round2 b, spread := round2 (b - w) }) ∧
    ((alphaKey = false ∨ (∃ e, aw = .error e) ∨ (∃ e, ab = .error e)) →
      fetch_prices alphaKey aw ab nk r1 r2 = mock_prices r1 r2) ∧
    ((mock_prices r1 r2).spread
      = round2 ((mock_prices r1 r2).brent - (mock_prices r1 r2).wti)) := by
  refine ⟨?_, ?_, rfl⟩
  · intro w b hk hw hb
    subst hk; subst hw; subst hb
    rfl
  · rintro (h | ⟨e, h⟩ | ⟨e, h⟩)
    · subst h; rfl
    · subst h; cases alphaKey <;> cases ab <;> rfl
    · subst h; cases alphaKey <;> cases aw <;> rfl

/-- Witness for C10: the mock fallback with no keys, and the AlphaVantage
branch with two successes. -/
theorem fetch_prices_correct_witness :
    fetch_prices false (Except.error "no key") (Except.error "no key") false 0 0
      = mock_prices 0 0 ∧
    fetch_prices true (Except.ok 70) (Except.ok 75) false 0 0
      = { wti := round2 70, brent := round2 75, spread := round2 (75 - 70) } :=
  ⟨(fetch_prices_correct false (Except.error "no key") (Except.error "no key") false 0 0).2.1
      (Or.inl rfl),
   (fetch_prices_correct true (Except.ok 70) (Except.ok 75) false 0 0).1 70 75 rfl rfl rfl⟩

end EnergyReports
